import Mathlib

/-!
Verification of the livekit-examples/cpp-example-collection repository.

The development shallowly embeds the two components the specification talks
about:

* `LiveKitSDK`: the CMake configure-time helper `cmake/LiveKitSDK.cmake`
  (`_lk_detect_host`, `_lk_default_triple`, `_lk_archive_ext`,
  `_lk_resolve_latest_version`, `livekit_sdk_setup`).  External effects
  (filesystem existence checks, the GitHub release API, the archive download
  and extraction) are modelled by an oracle `World`; the run is a pure
  function producing the list of network events it performs together with
  either a fatal configuration error or the resulting SDK location data.

* `BasicRoom`: the example binary `basic_room/main.cpp` (`parseArgs` and
  `main`).  The external SDK calls (connect, publish, unpublish) are
  modelled by a `RunWorld` oracle; `main` is a pure function from argv, the
  two environment variables and the oracle to the list of observable actions
  and the process exit code.
-/

instance {ε α : Type} [DecidableEq ε] [DecidableEq α] : DecidableEq (Except ε α) := fun a b =>
  match a, b with
  | .error e, .error f =>
    if h : e = f then .isTrue (by rw [h]) else .isFalse (by intro c; cases c; exact h rfl)
  | .ok x, .ok y =>
    if h : x = y then .isTrue (by rw [h]) else .isFalse (by intro c; cases c; exact h rfl)
  | .error _, .ok _ => .isFalse (by intro c; cases c)
  | .ok _, .error _ => .isFalse (by intro c; cases c)

/-- Kernel-reducible uppercase (the core `String.toUpper` iterates over byte
positions and does not reduce definitionally). -/
def strUpper (s : String) : String := ⟨s.data.map Char.toUpper⟩

/-- Kernel-reducible lowercase, modelling `string(TOLOWER ...)`. -/
def strLower (s : String) : String := ⟨s.data.map Char.toLower⟩

/-- Kernel-reducible suffix test. -/
def strHasSuffix (s suf : String) : Bool := suf.data.isSuffixOf s.data

/-- Kernel-reducible test for a leading pattern, modelling
`std::string::rfind(pat, 0) == 0` and CMake anchored regex matches. -/
def strHasStart (s pat : String) : Bool := pat.data.isPrefixOf s.data

/-- Kernel-reducible drop of the first `n` characters, modelling
`std::string::substr(n)`. -/
def strDrop (s : String) (n : Nat) : String := ⟨s.data.drop n⟩

namespace LiveKitSDK

/-- CMake truthiness: `if(NOT var)` fires when the value is one of the CMake
false constants (case-insensitive), empty, or ends in `-NOTFOUND`. -/
def cmakeFalsy (s : String) : Bool :=
  let u := strUpper s
  u = "" || u = "0" || u = "OFF" || u = "NO" || u = "FALSE" || u = "N" ||
    u = "IGNORE" || u = "NOTFOUND" || strHasSuffix u "-NOTFOUND"

/-- An optional one-value argument of `cmake_parse_arguments` is falsy when it
was not passed at all or when its value is a CMake false constant. -/
def optFalsy : Option String → Bool
  | none => true
  | some s => cmakeFalsy s

/-- Host operating system as seen by the CMake predicates `WIN32`, `APPLE`,
`UNIX`; `other` is a host matching none of the three. -/
inductive HostOS
  | windows
  | macos
  | linux
  | other
deriving DecidableEq, Repr

/-- Oracle for everything `LiveKitSDK.cmake` observes about the outside
world: the host, the environment, the filesystem at configure start, and the
outcomes of the network and extraction operations. -/
structure World where
  host_os : HostOS
  host_processor : String
  env_github_token : String
  binary_dir : String
  fs_exists : String → Bool
  api_ok : Bool
  api_tag : String
  download_ok : Bool
  extract_ok : Bool
  archive_has_libcmake : Bool

/-- Embedding of `_lk_detect_host` (lines 21-46): pick the OS name from the
platform predicates, then normalize the host processor string
case-insensitively; anything other than x86_64/amd64/arm64/aarch64 is a
fatal configuration error. -/
def lk_detect_host (w : World) : Except String (String × String) :=
  match w.host_os with
  | .other => .error "LiveKitSDK: unsupported host OS"
  | os =>
    let osName := match os with
      | .windows => "windows"
      | .macos => "macos"
      | _ => "linux"
    let procL := strLower w.host_processor
    if procL = "x86_64" || procL = "amd64" then
      .ok (osName, "x64")
    else if procL = "arm64" || procL = "aarch64" then
      .ok (osName, "arm64")
    else
      .error ("LiveKitSDK: unsupported host arch: " ++ w.host_processor)

/-- The architecture-normalization condition of `_lk_detect_host` lines
36-39: the lowercased processor string is one of the four accepted names. -/
def archSupported (proc : String) : Bool :=
  let p := strLower proc
  p = "x86_64" || p = "amd64" || p = "arm64" || p = "aarch64"

/-- Embedding of `_lk_default_triple` (lines 48-51). -/
def lk_default_triple (w : World) : Except String String :=
  match lk_detect_host w with
  | .error e => .error e
  | .ok (os, arch) => .ok (os ++ "-" ++ arch)

/-- Embedding of `_lk_archive_ext` (lines 53-60).  Note that it invokes
`_lk_detect_host`, so it fails on an unsupported host even when the caller
supplied a TRIPLE override. -/
def lk_archive_ext (w : World) : Except String String :=
  match lk_detect_host w with
  | .error e => .error e
  | .ok (os, _) => .ok (if os = "windows" then "zip" else "tar.gz")

/-- Strip every leading "v": embedding of the anchored regex replacement on
the tag at line 133.  CMake before policy CMP0186 (so on every version this
script targets) re-anchors "^" at the remaining substring after each
replacement, so the repeated search removes all leading "v" characters, not
just one. -/
def stripLeadingV (s : String) : String := ⟨s.data.dropWhile (· == 'v')⟩

/-- Observable network events of a configure run, plus the SHA256-ignored
warning of line 174 (needed to state the checksum claims). -/
inductive SetupEv
  | apiQuery : String → SetupEv
  | archiveDownload : String → Option String → SetupEv
  | warnSha256Ignored : SetupEv
deriving DecidableEq, Repr

/-- Embedding of `_lk_resolve_latest_version` (lines 64-135): one GitHub API
query; a non-zero download status is fatal, an empty `tag_name` is fatal,
otherwise the tag with a single leading "v" stripped is returned. -/
def lk_resolve_latest_version (repo : String) (w : World) :
    List SetupEv × Except String String :=
  let api := "https://api.github.com/repos/" ++ repo ++ "/releases/latest"
  let evs := [SetupEv.apiQuery api]
  if !w.api_ok then
    (evs, .error ("LiveKitSDK: failed to query latest release from GitHub API\nAPI: " ++ api))
  else if w.api_tag = "" then
    (evs, .error "LiveKitSDK: GitHub API response missing tag_name")
  else
    (evs, .ok (stripLeadingV w.api_tag))

/-- Arguments of `livekit_sdk_setup` as parsed by `cmake_parse_arguments`
(lines 148-151): `none` means the one-value keyword was not passed. -/
structure SetupArgs where
  version : Option String := none
  sdk_dir : Option String := none
  repo : Option String := none
  sha256 : Option String := none
  triple : Option String := none
  download_dir : Option String := none
  github_token : Option String := none
  no_download : Bool := false

/-- Data a successful `livekit_sdk_setup` run exports to the caller
(lines 252-265). -/
structure SetupResult where
  url : String
  extracted_root : String
  resolved_version : String
  triple : String
deriving DecidableEq, Repr

/-- Triple selection of lines 166-168: the TRIPLE override if given,
otherwise `_lk_default_triple` (which can fail on an unsupported host). -/
def lk_triple_of (a : SetupArgs) (w : World) : Except String String :=
  if optFalsy a.triple then lk_default_triple w else .ok (a.triple.getD "")

/-- Embedding of `livekit_sdk_setup` (lines 148-266).  Returns the network
events performed (in order) and either the fatal error aborting configuration
or the exported result. -/
def livekit_sdk_setup (a : SetupArgs) (w : World) :
    List SetupEv × Except String SetupResult :=
  if optFalsy a.version then
    ([], .error "livekit_sdk_setup: VERSION is required (use latest if desired)")
  else if optFalsy a.sdk_dir then
    ([], .error "livekit_sdk_setup: SDK_DIR is required")
  else
    let version := a.version.getD ""
    let sdk_dir := a.sdk_dir.getD ""
    let repo := if optFalsy a.repo then "livekit/client-sdk-cpp" else a.repo.getD ""
    match lk_triple_of a w with
    | .error e => ([], .error e)
    | .ok triple =>
      -- lines 170-185: resolve "latest" through the GitHub API, discarding
      -- any SHA256 (with a warning) and defaulting the token from the env.
      let branch : List SetupEv × Option String × Except String String :=
        if version = "latest" then
          let warnEvs := if !optFalsy a.sha256 then [SetupEv.warnSha256Ignored] else []
          let res := lk_resolve_latest_version repo w
          (warnEvs ++ res.1, none, res.2)
        else
          ([], a.sha256, .ok version)
      let ev1 := branch.1
      let shaEff := branch.2.1
      match branch.2.2 with
      | .error e => (ev1, .error e)
      | .ok resolved =>
        match lk_archive_ext w with
        | .error e => (ev1, .error e)
        | .ok ext =>
          let archive := "livekit-sdk-" ++ triple ++ "-" ++ resolved ++ "." ++ ext
          let url := "https://github.com/" ++ repo ++ "/releases/download/v" ++
            resolved ++ "/" ++ archive
          let extracted_root := sdk_dir ++ "/livekit-sdk-" ++ triple ++ "-" ++ resolved
          if !w.fs_exists extracted_root then
            if a.no_download then
              (ev1, .error ("LiveKitSDK: SDK not found at:\n  " ++ extracted_root ++
                "\nand NO_DOWNLOAD was set."))
            else
              let hashArg := if !optFalsy shaEff then some (shaEff.getD "") else none
              let ev2 := ev1 ++ [SetupEv.archiveDownload url hashArg]
              if !w.download_ok then
                (ev2, .error ("LiveKitSDK: download failed\nURL: " ++ url))
              else if !w.extract_ok then
                (ev2, .error ("LiveKitSDK: archive extraction failed for " ++ archive))
              else if !w.archive_has_libcmake then
                (ev2, .error ("LiveKitSDK: extracted SDK does not look valid (missing lib/cmake)\nExpected: " ++ extracted_root))
              else
                (ev2, .ok ⟨url, extracted_root, resolved, triple⟩)
          else
            if !w.fs_exists (extracted_root ++ "/lib/cmake") then
              (ev1, .error ("LiveKitSDK: extracted SDK does not look valid (missing lib/cmake)\nExpected: " ++ extracted_root))
            else
              (ev1, .ok ⟨url, extracted_root, resolved, triple⟩)

/-- True exactly for network events: the release-API query and the archive
download (the warning is local console output). -/
def isNetEv : SetupEv → Bool
  | .apiQuery _ => true
  | .archiveDownload _ _ => true
  | .warnSha256Ignored => false

def isApiEv : SetupEv → Bool
  | .apiQuery _ => true
  | _ => false

def isDownloadEv : SetupEv → Bool
  | .archiveDownload _ _ => true
  | _ => false

def countApi (evs : List SetupEv) : Nat := (evs.filter isApiEv).length

def countDownload (evs : List SetupEv) : Nat := (evs.filter isDownloadEv).length

def countNet (evs : List SetupEv) : Nat := (evs.filter isNetEv).length

/-- A run outcome is fatal when configuration aborted with an error. -/
def isFatal {β : Type} : Except String β → Bool
  | .error _ => true
  | .ok _ => false

/-- A world in which every filesystem path exists (the SDK is fully cached),
the host is a stock linux/x86_64 machine, and every external operation would
succeed. -/
def worldAllCached : World :=
  { host_os := .linux, host_processor := "x86_64", env_github_token := "",
    binary_dir := "/b", fs_exists := fun _ => true, api_ok := true,
    api_tag := "v1.2.3", download_ok := true, extract_ok := true,
    archive_has_libcmake := true }

/-- A world identical to `worldAllCached` except that the latest release is
tagged "vv1.2.3", with two leading "v" characters. -/
def worldDoubleVTag : World :=
  { host_os := .linux, host_processor := "x86_64", env_github_token := "",
    binary_dir := "/b", fs_exists := fun _ => true, api_ok := true,
    api_tag := "vv1.2.3", download_ok := true, extract_ok := true,
    archive_has_libcmake := true }

/-- A world with a linux host on an unsupported processor, everything else
succeeding and nothing cached. -/
def worldBadArch : World :=
  { host_os := .linux, host_processor := "i686", env_github_token := "",
    binary_dir := "/b", fs_exists := fun _ => false, api_ok := true,
    api_tag := "v1.2.3", download_ok := true, extract_ok := true,
    archive_has_libcmake := true }

end LiveKitSDK

namespace BasicRoom

/-- Scan of the argument vector in `parseArgs` (main.cpp lines 44-73):
`-h`/`--help` fails immediately, `--self-test` succeeds immediately,
`--url`/`--token` consume the next argument (failing when it is absent),
`--url=`/`--token=` forms carry their value inline, anything else is
skipped.  Returns `none` for a failed parse, otherwise the final
`(url, token, self_test)` triple. -/
def parseLoop : List String → String → String → Option (String × String × Bool)
  | [], url, token => some (url, token, false)
  | a :: rest, url, token =>
    if a = "-h" || a = "--help" then none
    else if a = "--self-test" then some (url, token, true)
    else if a = "--url" then
      match rest with
      | [] => none
      | v :: rest2 => parseLoop rest2 v token
    else if strHasStart a "--url=" then parseLoop rest (strDrop a 6) token
    else if a = "--token" then
      match rest with
      | [] => none
      | v :: rest2 => parseLoop rest2 url v
    else if strHasStart a "--token=" then parseLoop rest url (strDrop a 8)
    else parseLoop rest url token

/-- Outcome of `parseArgs` as consumed by `main`: a failed parse (usage and
exit 1), a successful parse with `self_test` set, or a successful parse
with the final url and token. -/
inductive ParseOutcome
  | fail
  | selfTest (url token : String)
  | run (url token : String)
deriving DecidableEq, Repr

/-- Embedding of `parseArgs` (main.cpp lines 44-85).  `envUrl`/`envToken`
model the LIVEKIT_URL/LIVEKIT_TOKEN environment variables (`none` = unset).
The environment fallback runs only when the scan completed without an early
return and the respective string is still empty; the final check requires
both url and token to be non-empty. -/
def parseArgs (argv : List String) (envUrl envToken : Option String) : ParseOutcome :=
  match parseLoop argv "" "" with
  | none => .fail
  | some (url, token, true) => .selfTest url token
  | some (url, token, false) =>
    let url' := if url = "" then envUrl.getD "" else url
    let token' := if token = "" then envToken.getD "" else token
    if url' = "" || token' = "" then .fail else .run url' token'

/-- Observable actions of the `basic_room` `main`, in program order.
`initCall` models the `livekit::initialize(...)` call. -/
inductive MainEv
  | printUsage
  | initCall
  | installSignal
  | connectAttempt (url token : String)
  | errConnectFail
  | publishAudioAttempt
  | errPublishAudio
  | publishVideoAttempt
  | errPublishVideo
  | unpublishAudioAttempt
  | unpublishVideoAttempt
  | shutdownCall
  | selfTestOk
deriving DecidableEq, Repr

/-- Oracle for the SDK calls `main` makes: whether `Connect` returns true,
whether each `publishTrack` returns normally or throws, and whether each
`unpublishTrack` throws. -/
structure RunWorld where
  connect_ok : Bool
  audio_publish_ok : Bool
  video_publish_ok : Bool
  audio_unpublish_throws : Bool
  video_unpublish_throws : Bool

/-- Embedding of `main` (main.cpp lines 89-196) as the list of observable
actions and the exit code.  Publish failures are caught per-track and only
logged; both unpublish calls share a single try block whose exceptions are
swallowed, so a throwing audio unpublish skips the video unpublish. -/
def basicRoomMain (argv : List String) (envUrl envToken : Option String)
    (rw : RunWorld) : List MainEv × Nat :=
  match parseArgs argv envUrl envToken with
  | .fail => ([.printUsage], 1)
  | .selfTest _ _ => ([.initCall, .shutdownCall, .selfTestOk], 0)
  | .run url token =>
    let pre := [MainEv.installSignal, .initCall, .connectAttempt url token]
    if !rw.connect_ok then
      (pre ++ [.errConnectFail, .shutdownCall], 1)
    else
      let audioEvs :=
        if rw.audio_publish_ok then [MainEv.publishAudioAttempt]
        else [MainEv.publishAudioAttempt, .errPublishAudio]
      let videoEvs :=
        if rw.video_publish_ok then [MainEv.publishVideoAttempt]
        else [MainEv.publishVideoAttempt, .errPublishVideo]
      let unpubEvs :=
        if rw.audio_publish_ok then
          if rw.audio_unpublish_throws then
            [MainEv.unpublishAudioAttempt]
          else if rw.video_publish_ok then
            [MainEv.unpublishAudioAttempt, .unpublishVideoAttempt]
          else
            [MainEv.unpublishAudioAttempt]
        else if rw.video_publish_ok then
          [MainEv.unpublishVideoAttempt]
        else
          []
      (pre ++ audioEvs ++ videoEvs ++ unpubEvs ++ [.shutdownCall], 0)

/-- The scan reaches `--self-test` as a flag: no earlier `-h`/`--help`, and
it is not consumed as the value of an immediately preceding
`--url`/`--token` (nor cut off by such a flag ending the vector). -/
def selfTestReached : List String → Bool
  | [] => false
  | a :: rest =>
    if a = "-h" || a = "--help" then false
    else if a = "--self-test" then true
    else if a = "--url" || a = "--token" then
      match rest with
      | [] => false
      | _ :: rest2 => selfTestReached rest2
    else selfTestReached rest

end BasicRoom

theorem strAppend_assoc (a b c : String) : a ++ b ++ c = a ++ (b ++ c) := by
  apply String.ext
  simp [String.data_append, List.append_assoc]

namespace LiveKitSDK

@[simp] theorem optFalsy_some (s : String) : optFalsy (some s) = cmakeFalsy s := rfl

@[simp] theorem optFalsy_none : optFalsy none = true := rfl

/-- The API resolver performs exactly one network event, the API query. -/
theorem resolve_events (repo : String) (w : World) :
    (lk_resolve_latest_version repo w).1 =
      [SetupEv.apiQuery ("https://api.github.com/repos/" ++ repo ++ "/releases/latest")] := by
  unfold lk_resolve_latest_version
  split
  · rfl
  · split <;> rfl

/-- A successful API query with an empty tag_name resolves to the
missing-tag fatal error. -/
theorem resolve_tag_empty (repo : String) (w : World)
    (hok : w.api_ok = true) (htag : w.api_tag = "") :
    (lk_resolve_latest_version repo w).2 =
      .error "LiveKitSDK: GitHub API response missing tag_name" := by
  simp [lk_resolve_latest_version, hok, htag]

/-- A failed API query resolves to the query-failure fatal error. -/
theorem resolve_fail (repo : String) (w : World) (hbad : w.api_ok = false) :
    (lk_resolve_latest_version repo w).2 =
      .error ("LiveKitSDK: failed to query latest release from GitHub API\nAPI: " ++
        ("https://api.github.com/repos/" ++ repo ++ "/releases/latest")) := by
  simp [lk_resolve_latest_version, hbad]

/-- A successful API query with a non-empty tag resolves to the tag with a
single leading "v" stripped. -/
theorem resolve_ok (repo : String) (w : World)
    (hok : w.api_ok = true) (htag : w.api_tag ≠ "") :
    (lk_resolve_latest_version repo w).2 = .ok (stripLeadingV w.api_tag) := by
  simp [lk_resolve_latest_version, hok, htag]

/-- After dropping every leading 'v', the remainder does not start with
"v". -/
theorem dropWhile_v_no_v_start (l : List Char) :
    ("v" : String).data.isPrefixOf (l.dropWhile (· == 'v')) = false := by
  have hd : ("v" : String).data = ['v'] := rfl
  rw [hd]
  induction l with
  | nil => rfl
  | cons c cs ih =>
    by_cases h : c = 'v'
    · simpa [List.dropWhile, h] using ih
    · have hb : (c == 'v') = false := beq_eq_false_iff_ne.mpr h
      have hb' : ('v' == c) = false := beq_eq_false_iff_ne.mpr (Ne.symm h)
      simp [List.dropWhile, hb, hb', List.isPrefixOf]

/-- On a host whose OS is recognized but whose processor is not,
`_lk_detect_host` fails with the message naming the architecture. -/
theorem detect_host_err (w : World) (hos : w.host_os ≠ .other)
    (ha : archSupported w.host_processor = false) :
    lk_detect_host w =
      .error ("LiveKitSDK: unsupported host arch: " ++ w.host_processor) := by
  unfold lk_detect_host
  simp only [archSupported, Bool.or_eq_false_iff] at ha
  cases h : w.host_os <;> simp_all [lk_detect_host]

/-- Shape of any successful fixed-version setup run: the exported result is
fully determined by repo, sdk dir, version and the detected host pair. -/
theorem setup_ok_shape (a : SetupArgs) (w : World)
    (v d repo os arch : String) (r : SetupResult)
    (hv : a.version = some v) (hvf : cmakeFalsy v = false) (hlat : v ≠ "latest")
    (hd : a.sdk_dir = some d) (hdf : cmakeFalsy d = false)
    (hrepo : a.repo = some repo) (hrf : cmakeFalsy repo = false)
    (htrip : a.triple = none)
    (hhost : lk_detect_host w = .ok (os, arch))
    (hr : (livekit_sdk_setup a w).2 = .ok r) :
    r = ⟨"https://github.com/" ++ repo ++ "/releases/download/v" ++ v ++ "/" ++
          ("livekit-sdk-" ++ (os ++ "-" ++ arch) ++ "-" ++ v ++ "." ++
            (if os = "windows" then "zip" else "tar.gz")),
        d ++ "/livekit-sdk-" ++ (os ++ "-" ++ arch) ++ "-" ++ v,
        v, os ++ "-" ++ arch⟩ := by
  have hext : lk_archive_ext w = .ok (if os = "windows" then "zip" else "tar.gz") := by
    unfold lk_archive_ext; rw [hhost]
  have htr : lk_triple_of a w = .ok (os ++ "-" ++ arch) := by
    unfold lk_triple_of lk_default_triple; rw [htrip, hhost]; rfl
  simp only [livekit_sdk_setup, hv, hd, hrepo, optFalsy_some, hvf, hdf, hrf,
    if_neg hlat, htr, hext, Option.getD_some, Bool.false_eq_true, if_false] at hr
  (repeat' split at hr) <;> (try cases hr) <;> simp_all

end LiveKitSDK

namespace BasicRoom

theorem parseLoop_selfTest_cons (rest : List String) (u t : String) :
    parseLoop ("--self-test" :: rest) u t = some (u, t, true) := by
  rw [parseLoop.eq_def]; simp

theorem parseLoop_url_cons (v : String) (rest : List String) (u t : String) :
    parseLoop ("--url" :: v :: rest) u t = parseLoop rest v t := by
  rw [parseLoop.eq_def]; simp

theorem parseLoop_token_cons (v : String) (rest : List String) (u t : String) :
    parseLoop ("--token" :: v :: rest) u t = parseLoop rest u v := by
  rw [parseLoop.eq_def]
  simp [(by decide : strHasStart "--token" "--url=" = false)]

theorem parseLoop_urleq (a : String) (rest : List String) (u t : String)
    (h1 : a ≠ "-h") (h2 : a ≠ "--help") (h3 : a ≠ "--self-test")
    (h4 : a ≠ "--url") (h5 : strHasStart a "--url=" = true) :
    parseLoop (a :: rest) u t = parseLoop rest (strDrop a 6) t := by
  rw [parseLoop.eq_def]; simp [h1, h2, h3, h4, h5]

theorem parseLoop_tokeneq (a : String) (rest : List String) (u t : String)
    (h1 : a ≠ "-h") (h2 : a ≠ "--help") (h3 : a ≠ "--self-test")
    (h4 : a ≠ "--url") (h5 : strHasStart a "--url=" = false)
    (h6 : a ≠ "--token") (h7 : strHasStart a "--token=" = true) :
    parseLoop (a :: rest) u t = parseLoop rest u (strDrop a 8) := by
  rw [parseLoop.eq_def]; simp [h1, h2, h3, h4, h5, h6, h7]

theorem parseLoop_other (a : String) (rest : List String) (u t : String)
    (h1 : a ≠ "-h") (h2 : a ≠ "--help") (h3 : a ≠ "--self-test")
    (h4 : a ≠ "--url") (h5 : strHasStart a "--url=" = false)
    (h6 : a ≠ "--token") (h7 : strHasStart a "--token=" = false) :
    parseLoop (a :: rest) u t = parseLoop rest u t := by
  rw [parseLoop.eq_def]; simp [h1, h2, h3, h4, h5, h6, h7]

theorem stR_nil : selfTestReached [] = false := by
  rw [selfTestReached.eq_def]

theorem stR_helpFlag (a : String) (rest : List String)
    (h : a = "-h" ∨ a = "--help") : selfTestReached (a :: rest) = false := by
  rcases h with rfl | rfl <;> (rw [selfTestReached.eq_def]; simp)

theorem stR_hit (rest : List String) :
    selfTestReached ("--self-test" :: rest) = true := by
  rw [selfTestReached.eq_def]; simp

theorem stR_take_nil (a : String) (h : a = "--url" ∨ a = "--token") :
    selfTestReached [a] = false := by
  rcases h with rfl | rfl <;> (rw [selfTestReached.eq_def]; simp)

theorem stR_take_cons (a v : String) (rest2 : List String)
    (h : a = "--url" ∨ a = "--token") :
    selfTestReached (a :: v :: rest2) = selfTestReached rest2 := by
  rcases h with rfl | rfl <;> (rw [selfTestReached.eq_def]; simp)

theorem stR_other (a : String) (rest : List String)
    (h1 : a ≠ "-h") (h2 : a ≠ "--help") (h3 : a ≠ "--self-test")
    (h4 : a ≠ "--url") (h5 : a ≠ "--token") :
    selfTestReached (a :: rest) = selfTestReached rest := by
  rw [selfTestReached.eq_def]; simp [h1, h2, h3, h4, h5]

/-- Once the scan reaches `--self-test`, the loop's result does not depend
on anything appended after the argument vector, and it is a successful
`self_test = true` parse. -/
theorem parseLoop_self_test_hit : ∀ (n : Nat) (argv : List String),
    argv.length ≤ n → selfTestReached argv = true →
    ∀ (u t : String) (post : List String),
    parseLoop (argv ++ post) u t = parseLoop argv u t ∧
    ∃ p : String × String, parseLoop argv u t = some (p.1, p.2, true) := by
  intro n
  induction n with
  | zero =>
    intro argv hlen hst u t post
    cases argv with
    | nil => rw [stR_nil] at hst; cases hst
    | cons a rest => simp at hlen
  | succ n ih =>
    intro argv hlen hst u t post
    cases argv with
    | nil => rw [stR_nil] at hst; cases hst
    | cons a rest =>
      by_cases h1 : a = "-h" ∨ a = "--help"
      · rw [stR_helpFlag a rest h1] at hst; cases hst
      · push_neg at h1
        obtain ⟨h1a, h1b⟩ := h1
        by_cases h2 : a = "--self-test"
        · subst h2
          exact ⟨by rw [List.cons_append, parseLoop_selfTest_cons,
              parseLoop_selfTest_cons],
            ⟨(u, t), parseLoop_selfTest_cons rest u t⟩⟩
        · by_cases h3 : a = "--url" ∨ a = "--token"
          · cases rest with
            | nil => rw [stR_take_nil a h3] at hst; cases hst
            | cons v rest2 =>
              rw [stR_take_cons a v rest2 h3] at hst
              have hlen2 : rest2.length ≤ n := by
                simp only [List.length_cons] at hlen; omega
              rcases h3 with rfl | rfl
              · have hrec := ih rest2 hlen2 hst v t post
                rw [List.cons_append, List.cons_append,
                  parseLoop_url_cons, parseLoop_url_cons]
                exact hrec
              · have hrec := ih rest2 hlen2 hst u v post
                rw [List.cons_append, List.cons_append,
                  parseLoop_token_cons, parseLoop_token_cons]
                exact hrec
          · push_neg at h3
            obtain ⟨h3a, h3b⟩ := h3
            rw [stR_other a rest h1a h1b h2 h3a h3b] at hst
            have hlen2 : rest.length ≤ n := by
              simp only [List.length_cons] at hlen; omega
            by_cases h5 : strHasStart a "--url=" = true
            · have hrec := ih rest hlen2 hst (strDrop a 6) t post
              rw [List.cons_append, parseLoop_urleq a _ u t h1a h1b h2 h3a h5,
                parseLoop_urleq a _ u t h1a h1b h2 h3a h5]
              exact hrec
            · have h5' : strHasStart a "--url=" = false := by
                revert h5; cases strHasStart a "--url=" <;> simp
              by_cases h7 : strHasStart a "--token=" = true
              · have hrec := ih rest hlen2 hst u (strDrop a 8) post
                rw [List.cons_append,
                  parseLoop_tokeneq a _ u t h1a h1b h2 h3a h5' h3b h7,
                  parseLoop_tokeneq a _ u t h1a h1b h2 h3a h5' h3b h7]
                exact hrec
              · have h7' : strHasStart a "--token=" = false := by
                  revert h7; cases strHasStart a "--token=" <;> simp
                have hrec := ih rest hlen2 hst u t post
                rw [List.cons_append,
                  parseLoop_other a _ u t h1a h1b h2 h3a h5' h3b h7',
                  parseLoop_other a _ u t h1a h1b h2 h3a h5' h3b h7']
                exact hrec

end BasicRoom

open LiveKitSDK in
/-- C1 fails on the code: with VERSION="latest" and the whole SDK cache
present (every path exists), the run still performs one network access (the
release-API query), even though it succeeds using the cached extraction. -/
theorem C1_counterexample :
    countNet (livekit_sdk_setup { version := some "latest", sdk_dir := some "/sdk" }
      worldAllCached).1 = 1 ∧
    (livekit_sdk_setup { version := some "latest", sdk_dir := some "/sdk" }
      worldAllCached).2 =
      .ok ⟨"https://github.com/livekit/client-sdk-cpp/releases/download/v1.2.3/livekit-sdk-linux-x64-1.2.3.tar.gz",
        "/sdk/livekit-sdk-linux-x64-1.2.3", "1.2.3", "linux-x64"⟩ := by
  decide

open LiveKitSDK in
/-- C1 (amended): with a fixed VERSION and the expected extracted path
present, a run of livekit_sdk_setup performs no network access at all; with
VERSION="latest" and every path present, it performs exactly the one
release-API query and no archive download. -/
theorem C1_cached_setup_no_download (a : SetupArgs) (w : World) (v d tr : String)
    (hv : a.version = some v) (hd : a.sdk_dir = some d)
    (hdf : cmakeFalsy d = false) (htr : lk_triple_of a w = .ok tr) :
    (cmakeFalsy v = false → v ≠ "latest" →
      w.fs_exists (d ++ "/livekit-sdk-" ++ tr ++ "-" ++ v) = true →
      countNet (livekit_sdk_setup a w).1 = 0) ∧
    (v = "latest" →
      (∀ p, w.fs_exists p = true) →
      countApi (livekit_sdk_setup a w).1 = 1 ∧
        countDownload (livekit_sdk_setup a w).1 = 0) := by
  constructor
  · intro hvf hlat hex
    simp only [livekit_sdk_setup, hv, hd, optFalsy_some, hvf, hdf, htr,
      Option.getD_some, Bool.false_eq_true, if_false, if_neg hlat, hex,
      Bool.not_true]
    split
    · rfl
    · split <;> rfl
  · intro hlat hall
    subst hlat
    have hlatf : cmakeFalsy "latest" = false := by decide
    simp only [livekit_sdk_setup, hv, hd, optFalsy_some, hlatf, hdf, htr,
      Option.getD_some, Bool.false_eq_true, if_false, eq_self_iff_true,
      if_true, ite_true, resolve_events, hall, Bool.not_true]
    refine ⟨?_, ?_⟩ <;>
      (repeat' split) <;>
        simp [countApi, countDownload, isApiEv, isDownloadEv, List.filter_append]

open LiveKitSDK in
/-- C1 witness: concrete run of the amended theorem at VERSION="1.2.3" with
the whole cache present. -/
theorem C1_cached_setup_no_download_witness :
    countNet (livekit_sdk_setup { version := some "1.2.3", sdk_dir := some "/sdk" }
      worldAllCached).1 = 0 :=
  (C1_cached_setup_no_download { version := some "1.2.3", sdk_dir := some "/sdk" }
    worldAllCached "1.2.3" "/sdk" "linux-x64" rfl rfl (by decide) (by decide)).1
    (by decide) (by decide) (by decide)

open LiveKitSDK in
/-- C2 fails on the code: with NO_DOWNLOAD set and VERSION="latest", the run
still performs one network access (the release-API query), performed before
the NO_DOWNLOAD presence check. -/
theorem C2_counterexample :
    countNet (livekit_sdk_setup
      { version := some "latest", sdk_dir := some "/sdk", no_download := true }
      worldAllCached).1 = 1 := by
  decide

open LiveKitSDK in
/-- C2 (amended): with NO_DOWNLOAD set, no archive download is ever
performed; for a fixed VERSION no network access happens at all and a
missing extracted path is a fatal error; any success uses a pre-existing
extracted path. When VERSION="latest" the release-API query still occurs. -/
theorem C2_no_download_behavior (a : SetupArgs) (w : World)
    (hnd : a.no_download = true) :
    countDownload (livekit_sdk_setup a w).1 = 0 ∧
    (∀ v d tr, a.version = some v → cmakeFalsy v = false → v ≠ "latest" →
      a.sdk_dir = some d → cmakeFalsy d = false → lk_triple_of a w = .ok tr →
      countNet (livekit_sdk_setup a w).1 = 0 ∧
      (w.fs_exists (d ++ "/livekit-sdk-" ++ tr ++ "-" ++ v) = false →
        isFatal (livekit_sdk_setup a w).2 = true)) ∧
    (∀ r, (livekit_sdk_setup a w).2 = .ok r → w.fs_exists r.extracted_root = true) := by
  refine ⟨?_, ?_, ?_⟩
  · simp only [livekit_sdk_setup, resolve_events]
    (repeat' split) <;>
      simp_all [countDownload, isDownloadEv, List.filter_append]
  · intro v d tr hv hvf hlat hd hdf htr
    simp only [livekit_sdk_setup, hv, hd, optFalsy_some, hvf, hdf, htr,
      Option.getD_some, Bool.false_eq_true, if_false, if_neg hlat, hnd]
    constructor
    · (repeat' split) <;> simp_all [countNet, isNetEv]
    · intro hmiss
      simp only [hmiss, Bool.not_false, if_true, ite_true]
      (repeat' split) <;> simp_all [isFatal]
  · intro r hr
    rw [livekit_sdk_setup] at hr
    by_cases hL : a.version.getD "" = "latest"
    · simp only [hL, eq_self_iff_true, if_true, ite_true] at hr
      (repeat' split at hr) <;> (try cases hr) <;> simp_all
    · simp only [if_neg hL] at hr
      (repeat' split at hr) <;> (try cases hr) <;> simp_all

open LiveKitSDK in
/-- C2 witness: concrete run of the amended theorem with NO_DOWNLOAD and the
cache present. -/
theorem C2_no_download_behavior_witness :
    countDownload (livekit_sdk_setup
      { version := some "1.2.3", sdk_dir := some "/sdk", no_download := true }
      worldAllCached).1 = 0 :=
  (C2_no_download_behavior
    { version := some "1.2.3", sdk_dir := some "/sdk", no_download := true }
    worldAllCached rfl).1

open LiveKitSDK in
/-- C3 fails on the code: with a TRIPLE override and VERSION="latest", an
unsupported host processor still aborts configuration, but only after the
release-API network query has been performed (the claim requires the failure
to precede any network call even with a TRIPLE override). -/
theorem C3_counterexample :
    isFatal (livekit_sdk_setup
      { version := some "latest", sdk_dir := some "/sdk", triple := some "linux-x64" }
      worldBadArch).2 = true ∧
    countNet (livekit_sdk_setup
      { version := some "latest", sdk_dir := some "/sdk", triple := some "linux-x64" }
      worldBadArch).1 = 1 := by
  decide

open LiveKitSDK in
/-- C3 (amended): an unsupported host processor (with a recognized OS) is
always a fatal error and never leads to an archive download; whenever no
TRIPLE override is given, or VERSION is not "latest", the failure carries
the message naming the architecture and happens before any network event.
Only the combination of a TRIPLE override with VERSION="latest" lets the
one release-API query precede the failure. -/
theorem C3_unsupported_arch (a : SetupArgs) (w : World) (v d : String)
    (hos : w.host_os ≠ .other) (ha : archSupported w.host_processor = false)
    (hv : a.version = some v) (hvf : cmakeFalsy v = false)
    (hd : a.sdk_dir = some d) (hdf : cmakeFalsy d = false) :
    isFatal (livekit_sdk_setup a w).2 = true ∧
    ((optFalsy a.triple = true ∨ v ≠ "latest") →
      (livekit_sdk_setup a w).1 = [] ∧
      (livekit_sdk_setup a w).2 =
        .error ("LiveKitSDK: unsupported host arch: " ++ w.host_processor)) ∧
    countDownload (livekit_sdk_setup a w).1 = 0 := by
  have hdet := detect_host_err w hos ha
  refine ⟨?_, ?_, ?_⟩
  · simp only [livekit_sdk_setup, lk_triple_of, lk_default_triple,
      lk_archive_ext, hdet, hv, hd, optFalsy_some, hvf, hdf,
      Option.getD_some, Bool.false_eq_true, if_false]
    (repeat' split) <;> simp_all [isFatal]
  · intro hcase
    rcases hcase with htf | hnl
    · simp [livekit_sdk_setup, lk_triple_of, lk_default_triple, hdet, hv, hd,
        optFalsy_some, hvf, hdf, htf]
    · by_cases htf : optFalsy a.triple = true
      · simp [livekit_sdk_setup, lk_triple_of, lk_default_triple, hdet, hv, hd,
          optFalsy_some, hvf, hdf, htf]
      · have htf' : optFalsy a.triple = false := by
          revert htf; cases optFalsy a.triple <;> simp
        simp [livekit_sdk_setup, lk_triple_of, lk_default_triple,
          lk_archive_ext, hdet, hv, hd, optFalsy_some, hvf, hdf, htf',
          if_neg hnl]
  · simp only [livekit_sdk_setup, lk_triple_of, lk_default_triple,
      lk_archive_ext, hdet, hv, hd, optFalsy_some, hvf, hdf,
      Option.getD_some, Bool.false_eq_true, if_false, resolve_events]
    (repeat' split) <;>
      simp_all [countDownload, isDownloadEv, List.filter_append]

open LiveKitSDK in
/-- C3 witness: concrete run of the amended theorem on a linux host with an
i686 processor and no TRIPLE override. -/
theorem C3_unsupported_arch_witness :
    (livekit_sdk_setup { version := some "1.2.3", sdk_dir := some "/sdk" }
      worldBadArch).2 =
      .error ("LiveKitSDK: unsupported host arch: " ++ "i686") :=
  ((C3_unsupported_arch { version := some "1.2.3", sdk_dir := some "/sdk" }
    worldBadArch "1.2.3" "/sdk" (by decide) (by decide) rfl (by decide) rfl
    (by decide)).2.1 (Or.inl (by decide))).2

open LiveKitSDK in
/-- C4: for a fixed (OS, architecture, version, repo) tuple, every
successful setup run derives the download URL
"https://github.com/(repo)/releases/download/v(version)/livekit-sdk-(os)-(arch)-(version).(ext)"
with ext "zip" on Windows and "tar.gz" otherwise, and the extraction path
SDK_DIR/livekit-sdk-(os)-(arch)-(version); two runs over different worlds
with the same host detection agree on both, so the derivation is a
deterministic function of its inputs. -/
theorem C4_url_deterministic (a : SetupArgs) (w w' : World)
    (v d repo os arch : String) (r r' : SetupResult)
    (hv : a.version = some v) (hvf : cmakeFalsy v = false) (hlat : v ≠ "latest")
    (hd : a.sdk_dir = some d) (hdf : cmakeFalsy d = false)
    (hrepo : a.repo = some repo) (hrf : cmakeFalsy repo = false)
    (htrip : a.triple = none)
    (hhost : lk_detect_host w = .ok (os, arch))
    (hhost' : lk_detect_host w' = .ok (os, arch))
    (hr : (livekit_sdk_setup a w).2 = .ok r)
    (hr' : (livekit_sdk_setup a w').2 = .ok r') :
    r.url = "https://github.com/" ++ repo ++ "/releases/download/v" ++ v ++
      "/livekit-sdk-" ++ os ++ "-" ++ arch ++ "-" ++ v ++ "." ++
      (if os = "windows" then "zip" else "tar.gz") ∧
    r.extracted_root = d ++ "/livekit-sdk-" ++ os ++ "-" ++ arch ++ "-" ++ v ∧
    r'.url = r.url ∧ r'.extracted_root = r.extracted_root := by
  have h1 := setup_ok_shape a w v d repo os arch r hv hvf hlat hd hdf hrepo
    hrf htrip hhost hr
  have h2 := setup_ok_shape a w' v d repo os arch r' hv hvf hlat hd hdf hrepo
    hrf htrip hhost' hr'
  subst h1
  subst h2
  have hmerge : ∀ x : String, ("/" : String) ++ ("livekit-sdk-" ++ x) =
      "/livekit-sdk-" ++ x := by
    intro x
    rw [← strAppend_assoc]
    exact congrArg (fun s => s ++ x) (by decide)
  refine ⟨?_, ?_, rfl, rfl⟩ <;> simp [strAppend_assoc, hmerge]

open LiveKitSDK in
/-- C4 witness: at a concrete linux/x86_64 world with version 1.2.3, the
derived URL and extraction path are the expected literal strings. -/
theorem C4_url_deterministic_witness :
    (⟨"https://github.com/livekit/client-sdk-cpp/releases/download/v1.2.3/livekit-sdk-linux-x64-1.2.3.tar.gz",
       "/sdk/livekit-sdk-linux-x64-1.2.3", "1.2.3", "linux-x64"⟩ : SetupResult).url =
      "https://github.com/" ++ "livekit/client-sdk-cpp" ++ "/releases/download/v" ++
        "1.2.3" ++ "/livekit-sdk-" ++ "linux" ++ "-" ++ "x64" ++ "-" ++
        "1.2.3" ++ "." ++ (if ("linux" : String) = "windows" then "zip" else "tar.gz") :=
  (C4_url_deterministic
    { version := some "1.2.3", sdk_dir := some "/sdk",
      repo := some "livekit/client-sdk-cpp" }
    worldAllCached worldAllCached "1.2.3" "/sdk" "livekit/client-sdk-cpp"
    "linux" "x64"
    ⟨"https://github.com/livekit/client-sdk-cpp/releases/download/v1.2.3/livekit-sdk-linux-x64-1.2.3.tar.gz",
      "/sdk/livekit-sdk-linux-x64-1.2.3", "1.2.3", "linux-x64"⟩
    ⟨"https://github.com/livekit/client-sdk-cpp/releases/download/v1.2.3/livekit-sdk-linux-x64-1.2.3.tar.gz",
      "/sdk/livekit-sdk-linux-x64-1.2.3", "1.2.3", "linux-x64"⟩
    rfl (by decide) (by decide) rfl (by decide) rfl (by decide) rfl
    (by decide) (by decide) (by decide) (by decide)).1

open LiveKitSDK in
/-- C6 fails on the code: pre-CMP0186 CMake re-anchors "^" after each
replacement, so the regex replacement strips every leading "v"; the tag
"vv1.2.3" therefore resolves to "1.2.3" in the program, while the claim
(one leading "v" removed) predicts "v1.2.3". -/
theorem C6_counterexample :
    (livekit_sdk_setup { version := some "latest", sdk_dir := some "/sdk" }
      worldDoubleVTag).2 =
      .ok ⟨"https://github.com/livekit/client-sdk-cpp/releases/download/v1.2.3/livekit-sdk-linux-x64-1.2.3.tar.gz",
        "/sdk/livekit-sdk-linux-x64-1.2.3", "1.2.3", "linux-x64"⟩ ∧
    strDrop "vv1.2.3" 1 = "v1.2.3" ∧ ("1.2.3" : String) ≠ "v1.2.3" := by
  decide

open LiveKitSDK in
/-- C6 (amended): with VERSION="latest" (and valid arguments), the setup
queries the release API exactly once; an empty tag_name with a successful
query is fatal; any successful run resolves the version to the tag with
every leading "v" stripped (the pre-CMP0186 re-anchoring semantics of the
CMake regex replacement): stripping removes leading "v"s one at a time
until none is left, and leaves tags without a leading "v" unchanged. -/
theorem C6_latest_resolution (a : SetupArgs) (w : World) (d tr : String)
    (hv : a.version = some "latest") (hd : a.sdk_dir = some d)
    (hdf : cmakeFalsy d = false) (htr : lk_triple_of a w = .ok tr) :
    countApi (livekit_sdk_setup a w).1 = 1 ∧
    (w.api_ok = true → w.api_tag = "" → isFatal (livekit_sdk_setup a w).2 = true) ∧
    (w.api_ok = false → isFatal (livekit_sdk_setup a w).2 = true) ∧
    (∀ r, (livekit_sdk_setup a w).2 = .ok r →
      r.resolved_version = stripLeadingV w.api_tag) ∧
    (∀ t, strHasStart t "v" = true → stripLeadingV t = stripLeadingV (strDrop t 1)) ∧
    (∀ t, strHasStart t "v" = false → stripLeadingV t = t) ∧
    (∀ t, strHasStart (stripLeadingV t) "v" = false) := by
  have hlatf : cmakeFalsy "latest" = false := by decide
  refine ⟨?_, ?_, ?_, ?_, ?_, ?_, ?_⟩
  · simp only [livekit_sdk_setup, hv, hd, optFalsy_some, hlatf, hdf, htr,
      Option.getD_some, Bool.false_eq_true, if_false, eq_self_iff_true,
      if_true, ite_true, resolve_events]
    (repeat' split) <;>
      simp [countApi, isApiEv, List.filter_append]
  · intro hok htag
    simp only [livekit_sdk_setup, hv, hd, optFalsy_some, hlatf, hdf, htr,
      Option.getD_some, Bool.false_eq_true, if_false, eq_self_iff_true,
      if_true, ite_true, resolve_tag_empty _ _ hok htag]
    (repeat' split) <;> simp_all [isFatal]
  · intro hbad
    simp only [livekit_sdk_setup, hv, hd, optFalsy_some, hlatf, hdf, htr,
      Option.getD_some, Bool.false_eq_true, if_false, eq_self_iff_true,
      if_true, ite_true, resolve_fail _ _ hbad]
    (repeat' split) <;> simp_all [isFatal]
  · intro r hr
    by_cases hok : w.api_ok = true
    · by_cases htag : w.api_tag = ""
      · rw [livekit_sdk_setup] at hr
        simp only [hv, hd, optFalsy_some, hlatf, hdf, htr, Option.getD_some,
          Bool.false_eq_true, if_false, eq_self_iff_true, if_true, ite_true,
          resolve_tag_empty, hok, htag] at hr
        (repeat' split at hr) <;> simp_all
      · rw [livekit_sdk_setup] at hr
        simp only [hv, hd, optFalsy_some, hlatf, hdf, htr, Option.getD_some,
          Bool.false_eq_true, if_false, eq_self_iff_true, if_true, ite_true,
          resolve_ok, hok, htag] at hr
        (repeat' split at hr) <;> (try cases hr) <;> simp_all [resolve_ok]
    · have hbad : w.api_ok = false := by revert hok; cases w.api_ok <;> simp
      rw [livekit_sdk_setup] at hr
      simp only [hv, hd, optFalsy_some, hlatf, hdf, htr, Option.getD_some,
        Bool.false_eq_true, if_false, eq_self_iff_true, if_true, ite_true,
        resolve_fail, hbad] at hr
      (repeat' split at hr) <;> simp_all
  · intro t h
    obtain ⟨l⟩ := t
    have hd : ("v" : String).data = ['v'] := rfl
    rw [strHasStart, hd] at h
    cases l with
    | nil => cases h
    | cons c cs =>
      simp only [List.isPrefixOf, Bool.and_eq_true, List.isPrefixOf_nil_left,
        and_true, beq_iff_eq] at h
      subst h
      simp [stripLeadingV, strDrop, List.dropWhile]
  · intro t h
    obtain ⟨l⟩ := t
    have hd : ("v" : String).data = ['v'] := rfl
    rw [strHasStart, hd] at h
    cases l with
    | nil => rfl
    | cons c cs =>
      have hc : ¬('v' = c) := by
        intro hc
        subst hc
        simp [List.isPrefixOf] at h
      have hb : (c == 'v') = false := beq_eq_false_iff_ne.mpr (Ne.symm hc)
      simp [stripLeadingV, List.dropWhile, hb]
  · intro t
    rw [strHasStart, stripLeadingV]
    exact dropWhile_v_no_v_start t.data

open LiveKitSDK in
/-- C6 witness: a concrete cached run with VERSION="latest" performs exactly
one API query. -/
theorem C6_latest_resolution_witness :
    countApi (livekit_sdk_setup { version := some "latest", sdk_dir := some "/sdk" }
      worldAllCached).1 = 1 :=
  (C6_latest_resolution { version := some "latest", sdk_dir := some "/sdk" }
    worldAllCached "/sdk" "linux-x64" rfl rfl (by decide) (by decide)).1

open LiveKitSDK in
set_option maxHeartbeats 1000000 in
/-- C9: with VERSION="latest" and a (truthy) SHA256 argument, the run warns
that the checksum is ignored and no archive download carries a hash; and in
general, any download performed with a hash comes from a fixed VERSION whose
SHA256 argument was given, so checksum verification happens only in that
case. -/
theorem C9_sha256_latest_ignored (a : SetupArgs) (w : World) :
    (∀ h d tr, a.version = some "latest" → a.sha256 = some h →
      cmakeFalsy h = false → a.sdk_dir = some d → cmakeFalsy d = false →
      lk_triple_of a w = .ok tr →
      SetupEv.warnSha256Ignored ∈ (livekit_sdk_setup a w).1 ∧
      (∀ u hh, SetupEv.archiveDownload u (some hh) ∉ (livekit_sdk_setup a w).1)) ∧
    (∀ u hh, SetupEv.archiveDownload u (some hh) ∈ (livekit_sdk_setup a w).1 →
      a.version.getD "" ≠ "latest" ∧ a.sha256 = some hh ∧ cmakeFalsy hh = false) := by
  constructor
  · intro h d tr hv hs hsf hd hdf htr
    have hlatf : cmakeFalsy "latest" = false := by decide
    simp only [livekit_sdk_setup, hv, hd, hs, optFalsy_some, hlatf, hdf, hsf,
      htr, Option.getD_some, Bool.false_eq_true, if_false, eq_self_iff_true,
      if_true, ite_true, Bool.not_false, resolve_events]
    constructor
    · (repeat' split) <;> simp_all
    · intro u hh
      (repeat' split) <;> simp_all
  · intro u hh hmem
    rw [livekit_sdk_setup] at hmem
    by_cases hL : a.version.getD "" = "latest"
    · simp only [hL, eq_self_iff_true, if_true, ite_true, resolve_events] at hmem
      (repeat' split at hmem) <;> simp_all
    · simp only [if_neg hL] at hmem
      (repeat' split at hmem) <;> simp_all [optFalsy]
      all_goals
        cases hs : a.sha256 <;> simp_all

open LiveKitSDK in
/-- C9 witness: a concrete cached run with VERSION="latest" and SHA256
given emits the ignored-checksum warning. -/
theorem C9_sha256_latest_ignored_witness :
    SetupEv.warnSha256Ignored ∈ (livekit_sdk_setup
      { version := some "latest", sdk_dir := some "/sdk", sha256 := some "aabb" }
      worldAllCached).1 :=
  ((C9_sha256_latest_ignored
    { version := some "latest", sdk_dir := some "/sdk", sha256 := some "aabb" }
    worldAllCached).1 "aabb" "/sdk" "linux-x64" rfl rfl (by decide) rfl
    (by decide) (by decide)).1

open LiveKitSDK in
set_option maxHeartbeats 1600000 in
/-- C5: every setup run performs at most one API query and at most one
archive download (no retries); an unsupported host OS or architecture is
fatal; a failed release-API query under VERSION="latest" is fatal; a failed
archive download (which includes a checksum mismatch) is fatal whenever a
download was attempted; a failed extraction likewise; and a run can only
succeed when the extracted tree has lib/cmake (from the archive or from the
pre-existing extraction), so no failure continues with partial results. -/
theorem C5_failures_fatal (a : SetupArgs) (w : World) :
    countApi (livekit_sdk_setup a w).1 ≤ 1 ∧
    countDownload (livekit_sdk_setup a w).1 ≤ 1 ∧
    (∀ e, lk_detect_host w = .error e → isFatal (livekit_sdk_setup a w).2 = true) ∧
    (a.version = some "latest" → w.api_ok = false →
      isFatal (livekit_sdk_setup a w).2 = true) ∧
    (w.download_ok = false → isFatal (livekit_sdk_setup a w).2 = true ∨
      countDownload (livekit_sdk_setup a w).1 = 0) ∧
    (w.download_ok = true → w.extract_ok = false →
      isFatal (livekit_sdk_setup a w).2 = true ∨
      countDownload (livekit_sdk_setup a w).1 = 0) ∧
    (∀ r, (livekit_sdk_setup a w).2 = .ok r →
      w.archive_has_libcmake = true ∨
        w.fs_exists (r.extracted_root ++ "/lib/cmake") = true) := by
  refine ⟨?_, ?_, ?_, ?_, ?_, ?_, ?_⟩
  · by_cases hL : a.version.getD "" = "latest"
    · simp only [livekit_sdk_setup, hL, eq_self_iff_true, if_true, ite_true,
        resolve_events]
      (repeat' split) <;> simp_all [countApi, isApiEv, List.filter_append]
    · simp only [livekit_sdk_setup, if_neg hL]
      (repeat' split) <;> simp_all [countApi, isApiEv, List.filter_append]
  · by_cases hL : a.version.getD "" = "latest"
    · simp only [livekit_sdk_setup, hL, eq_self_iff_true, if_true, ite_true,
        resolve_events]
      (repeat' split) <;> simp_all [countDownload, isDownloadEv, List.filter_append]
    · simp only [livekit_sdk_setup, if_neg hL]
      (repeat' split) <;> simp_all [countDownload, isDownloadEv, List.filter_append]
  · intro e hdet
    have hdt : lk_default_triple w = .error e := by
      unfold lk_default_triple; rw [hdet]
    have hae : lk_archive_ext w = .error e := by
      unfold lk_archive_ext; rw [hdet]
    by_cases hL : a.version.getD "" = "latest"
    · simp only [livekit_sdk_setup, lk_triple_of, hdt, hae, hL,
        eq_self_iff_true, if_true, ite_true]
      (repeat' split) <;> simp_all [isFatal]
    · simp only [livekit_sdk_setup, lk_triple_of, hdt, hae, if_neg hL]
      (repeat' split) <;> simp_all [isFatal]
  · intro hv hbad
    have hL : a.version.getD "" = "latest" := by rw [hv]; rfl
    simp only [livekit_sdk_setup, hL, eq_self_iff_true, if_true, ite_true,
      resolve_fail, hbad]
    (repeat' split) <;> simp_all [isFatal]
  · intro hdl
    by_cases hL : a.version.getD "" = "latest"
    · simp only [livekit_sdk_setup, hL, eq_self_iff_true, if_true, ite_true,
        resolve_events, hdl, Bool.not_false]
      (repeat' split) <;>
        simp_all [isFatal, countDownload, isDownloadEv, List.filter_append]
    · simp only [livekit_sdk_setup, if_neg hL, hdl, Bool.not_false]
      (repeat' split) <;>
        simp_all [isFatal, countDownload, isDownloadEv, List.filter_append]
  · intro hdl hex
    by_cases hL : a.version.getD "" = "latest"
    · simp only [livekit_sdk_setup, hL, eq_self_iff_true, if_true, ite_true,
        resolve_events, hdl, hex, Bool.not_true, Bool.not_false]
      (repeat' split) <;>
        simp_all [isFatal, countDownload, isDownloadEv, List.filter_append]
    · simp only [livekit_sdk_setup, if_neg hL, hdl, hex, Bool.not_true,
        Bool.not_false]
      (repeat' split) <;>
        simp_all [isFatal, countDownload, isDownloadEv, List.filter_append]
  · intro r hr
    rw [livekit_sdk_setup] at hr
    by_cases hL : a.version.getD "" = "latest"
    · simp only [hL, eq_self_iff_true, if_true, ite_true] at hr
      (repeat' split at hr) <;> (try cases hr) <;> simp_all
    · simp only [if_neg hL] at hr
      (repeat' split at hr) <;> (try cases hr) <;> simp_all

open LiveKitSDK in
/-- C5 witness: on a host with an unsupported architecture, the concrete
run aborts with a fatal error. -/
theorem C5_failures_fatal_witness :
    isFatal (livekit_sdk_setup { version := some "1.2.3", sdk_dir := some "/sdk" }
      worldBadArch).2 = true :=
  (C5_failures_fatal { version := some "1.2.3", sdk_dir := some "/sdk" }
    worldBadArch).2.2.1 ("LiveKitSDK: unsupported host arch: " ++ "i686")
    (by decide)

open BasicRoom in
/-- C7 fails on the code: `--url=` (flag present, empty value) still falls
back to the LIVEKIT_URL environment variable, although the claim allows the
fallback only when the flag is absent. -/
theorem C7_counterexample :
    parseArgs ["--url="] (some "wss://env") (some "tok") =
      .run "wss://env" "tok" ∧ ("wss://env" : String) ≠ "" := by
  constructor
  · decide
  · decide

open BasicRoom in
/-- C7 (amended): `--url`/`--token` consume the following argument and
`--url=`/`--token=` carry their value inline; the environment fallback
applies whenever the respective parsed value is still empty (in particular
when the flag is absent, but also when it was given an empty value), and
the final outcome fails when either value is empty after fallback; the
process exits 1 on a failed parse, 0 on a self-test parse, and 1 when the
room connection fails. -/
theorem C7_cli_parsing (argv : List String) (envUrl envToken : Option String)
    (rw : RunWorld) :
    (∀ v rest u t, parseLoop ("--url" :: v :: rest) u t = parseLoop rest v t) ∧
    (∀ v rest u t, parseLoop ("--token" :: v :: rest) u t = parseLoop rest u v) ∧
    (∀ u t, parseLoop argv "" "" = some (u, t, false) →
      parseArgs argv envUrl envToken =
        (if (if u = "" then envUrl.getD "" else u) = "" ∨
            (if t = "" then envToken.getD "" else t) = "" then
          ParseOutcome.fail
        else
          ParseOutcome.run (if u = "" then envUrl.getD "" else u)
            (if t = "" then envToken.getD "" else t))) ∧
    (parseArgs argv envUrl envToken = .fail →
      (basicRoomMain argv envUrl envToken rw).2 = 1) ∧
    (∀ u t, parseArgs argv envUrl envToken = .selfTest u t →
      (basicRoomMain argv envUrl envToken rw).2 = 0) ∧
    (∀ u t, parseArgs argv envUrl envToken = .run u t → rw.connect_ok = false →
      (basicRoomMain argv envUrl envToken rw).2 = 1) := by
  refine ⟨parseLoop_url_cons, parseLoop_token_cons, ?_, ?_, ?_, ?_⟩
  · intro u t hp
    rw [parseArgs, hp]
    simp
  · intro hp
    rw [basicRoomMain, hp]
  · intro u t hp
    rw [basicRoomMain, hp]
  · intro u t hp hco
    rw [basicRoomMain, hp]
    simp [hco]

open BasicRoom in
/-- C7 witness: flags present with non-empty values ignore the environment;
a failed connection exits 1. -/
theorem C7_cli_parsing_witness :
    (basicRoomMain ["--url", "u", "--token", "t"] (some "e1") (some "e2")
      ⟨false, true, true, false, false⟩).2 = 1 :=
  (C7_cli_parsing ["--url", "u", "--token", "t"] (some "e1") (some "e2")
    ⟨false, true, true, false, false⟩).2.2.2.2.2 "u" "t" (by decide) rfl

open BasicRoom in
/-- C8 fails on the code: when both publishes succeed and the audio
unpublish throws, the video unpublish is never attempted (both unpublish
calls share one try block), although the video publication succeeded. -/
theorem C8_counterexample :
    (basicRoomMain ["--url", "u", "--token", "t"] none none
      ⟨true, true, true, true, false⟩).1 =
      [.installSignal, .initCall, .connectAttempt "u" "t",
       .publishAudioAttempt, .publishVideoAttempt, .unpublishAudioAttempt,
       .shutdownCall] ∧
    MainEv.unpublishVideoAttempt ∉
      (basicRoomMain ["--url", "u", "--token", "t"] none none
        ⟨true, true, true, true, false⟩).1 := by
  constructor
  · decide
  · decide

open BasicRoom in
/-- C8 (amended): connection and publish failures are reported to standard
error; a failed publish does not terminate the run (the video publish is
still attempted and the exit code is 0); on shutdown an unpublish is
attempted for every successful publication unless an earlier unpublish in
the same try block threw; exceptions during unpublish are swallowed (exit
code stays 0). -/
theorem C8_best_effort (argv : List String) (e1 e2 : Option String)
    (rw : RunWorld) (u t : String)
    (hp : parseArgs argv e1 e2 = .run u t) :
    (rw.connect_ok = false →
      MainEv.errConnectFail ∈ (basicRoomMain argv e1 e2 rw).1 ∧
      (basicRoomMain argv e1 e2 rw).2 = 1) ∧
    (rw.connect_ok = true →
      (basicRoomMain argv e1 e2 rw).2 = 0 ∧
      (rw.audio_publish_ok = false →
        MainEv.errPublishAudio ∈ (basicRoomMain argv e1 e2 rw).1 ∧
        MainEv.publishVideoAttempt ∈ (basicRoomMain argv e1 e2 rw).1) ∧
      (rw.video_publish_ok = false →
        MainEv.errPublishVideo ∈ (basicRoomMain argv e1 e2 rw).1) ∧
      (rw.audio_publish_ok = true →
        MainEv.unpublishAudioAttempt ∈ (basicRoomMain argv e1 e2 rw).1) ∧
      (rw.video_publish_ok = true → rw.audio_publish_ok = true →
        rw.audio_unpublish_throws = false →
        MainEv.unpublishVideoAttempt ∈ (basicRoomMain argv e1 e2 rw).1) ∧
      (rw.video_publish_ok = true → rw.audio_publish_ok = false →
        MainEv.unpublishVideoAttempt ∈ (basicRoomMain argv e1 e2 rw).1)) := by
  rcases rw with ⟨co, ap, vp, aut, vut⟩
  cases co <;> cases ap <;> cases vp <;> cases aut <;> cases vut <;>
    simp [basicRoomMain, hp]

open BasicRoom in
/-- C8 witness: concrete run where the audio publish fails; the video
publish is still attempted, its unpublish happens, and the exit code is 0. -/
theorem C8_best_effort_witness :
    (basicRoomMain ["--url", "u", "--token", "t"] none none
      ⟨true, false, true, false, false⟩).2 = 0 :=
  ((C8_best_effort ["--url", "u", "--token", "t"] none none
    ⟨true, false, true, false, false⟩ "u" "t" (by decide)).2 rfl).1

open BasicRoom in
/-- C10: whenever the scan actually reaches `--self-test` (no earlier
`-h`/`--help`, and it is not consumed as the value of a preceding
`--url`/`--token`), everything after it is ignored, the parse succeeds
regardless of url/token/environment, and main exits 0 after the
initialize/shutdown pair without installing the signal handler or
attempting a connection. -/
theorem C10_self_test_flag (argv post : List String) (e1 e2 : Option String)
    (rw : RunWorld) (h : selfTestReached argv = true) :
    parseLoop (argv ++ post) "" "" = parseLoop argv "" "" ∧
    (∃ p : String × String, parseArgs (argv ++ post) e1 e2 = .selfTest p.1 p.2) ∧
    basicRoomMain (argv ++ post) e1 e2 rw =
      ([.initCall, .shutdownCall, .selfTestOk], 0) ∧
    MainEv.installSignal ∉ (basicRoomMain (argv ++ post) e1 e2 rw).1 ∧
    (∀ u t, MainEv.connectAttempt u t ∉ (basicRoomMain (argv ++ post) e1 e2 rw).1) := by
  obtain ⟨heq, p, hp⟩ :=
    parseLoop_self_test_hit argv.length argv le_rfl h "" "" post
  have hp2 : parseLoop (argv ++ post) "" "" = some (p.1, p.2, true) :=
    heq.trans hp
  have hpa : parseArgs (argv ++ post) e1 e2 = .selfTest p.1 p.2 := by
    rw [parseArgs, hp2]
  have hmain : basicRoomMain (argv ++ post) e1 e2 rw =
      ([.initCall, .shutdownCall, .selfTestOk], 0) := by
    rw [basicRoomMain, hpa]
  refine ⟨heq, ⟨p, hpa⟩, hmain, ?_, ?_⟩
  · rw [hmain]; decide
  · intro u t; rw [hmain]; simp

open BasicRoom in
/-- C10 witness: `--self-test` followed by further arguments (including a
`--url` flag) exits 0 after the initialize/shutdown pair. -/
theorem C10_self_test_flag_witness :
    basicRoomMain (["--self-test"] ++ ["--url", "x"]) (some "e") none
      ⟨false, false, false, false, false⟩ =
      ([.initCall, .shutdownCall, .selfTestOk], 0) :=
  (C10_self_test_flag ["--self-test"] ["--url", "x"] (some "e") none
    ⟨false, false, false, false, false⟩ (by decide)).2.2.1
